import Mathlib

/-!
# LearnOpenGL-1: the triangle demo of main.cpp

A shallow embedding of src/LearnOpenGL-1/main.cpp.  The program is a straight
line of calls into two external libraries (GLFW for the window, OpenGL for the
GPU) followed by one render loop.  The embedding passes an explicit World
through every call: the part of the window and of the GL context the program
can observe or change, together with the trace of every library call and of
every line printed, in the order the program issues them.

What the libraries answer (does window creation succeed, which handles are
generated, which status a shader reports, which events a poll dispatches) is
not decided by the program; it is an input of the model (Platform, and the
list of event batches handed to the polls).
-/

namespace LearnOpenGL

/-! ## Data model -/

/-- A GLfloat is represented by the decimal its literal is written with in the
source (0.2f by 0.2).  The program never computes with a float: literals are
only passed to the library, stored and compared, and two literals of the
source are the same float exactly when they are the same decimal. -/
abbrev GLfloat := Rat

abbrev GLuint := Nat

abbrev GLint := Int

/-- The OpenGL enumerants the program names. -/
inductive GLenum where
  | GL_ARRAY_BUFFER
  | GL_STATIC_DRAW
  | GL_VERTEX_SHADER
  | GL_FRAGMENT_SHADER
  | GL_COMPILE_STATUS
  | GL_LINK_STATUS
  | GL_FLOAT
  | GL_COLOR_BUFFER_BIT
  | GL_TRIANGLES
  deriving DecidableEq

/-- The window hints the program sets. -/
inductive WindowHint where
  | GLFW_CONTEXT_VERSION_MAJOR
  | GLFW_CONTEXT_VERSION_MINOR
  | GLFW_OPENGL_PROFILE
  deriving DecidableEq

/-- The value of a window hint: a number, or the core-profile constant. -/
inductive HintValue where
  | num (n : Int)
  | GLFW_OPENGL_CORE_PROFILE
  deriving DecidableEq

/-- The five keys process_input asks about. -/
inductive Key where
  | GLFW_KEY_ESCAPE
  | GLFW_KEY_Q
  | GLFW_KEY_R
  | GLFW_KEY_G
  | GLFW_KEY_B
  deriving DecidableEq

/-- What glfwGetKey answers. -/
inductive KeyAction where
  | GLFW_RELEASE
  | GLFW_PRESS
  deriving DecidableEq

/-- The cached state of the five keys of the window. -/
structure KeyState where
  escape : KeyAction
  q : KeyAction
  r : KeyAction
  g : KeyAction
  b : KeyAction
  deriving DecidableEq

/-- An RGBA clear colour. -/
structure Color where
  red : GLfloat
  green : GLfloat
  blue : GLfloat
  alpha : GLfloat
  deriving DecidableEq

/-- The viewport rectangle. -/
structure Viewport where
  x : GLint
  y : GLint
  width : GLint
  height : GLint
  deriving DecidableEq

/-- One attribute layout, as glVertexAttribPointer records it: the arguments of
the call, and the vertex array object and the array buffer bound at the moment
of the call. -/
structure AttribPointer where
  vertexArray : GLuint
  arrayBuffer : GLuint
  index : GLuint
  size : GLint
  type : GLenum
  normalized : Bool
  stride : Nat
  offset : Nat
  deriving DecidableEq

/-- Every library call the program makes, with its arguments, and every line it
prints (cout is one statement of the form cout << ... << endl). -/
inductive Call where
  | glfwInit
  | glfwWindowHint (hint : WindowHint) (value : HintValue)
  | glfwCreateWindow (width height : Nat) (title : String)
  | glfwTerminate
  | glfwMakeContextCurrent
  | gladLoadGLLoader
  | glViewport (x y width height : GLint)
  | glfwSetFramebufferSizeCallback
  | glClearColor (red green blue alpha : GLfloat)
  | glGenBuffers (n : Nat)
  | glBindBuffer (target : GLenum) (buffer : GLuint)
  | glBufferData (target : GLenum) (size : Nat) (data : List GLfloat) (usage : GLenum)
  | glCreateShader (type : GLenum)
  | glShaderSource (shader : GLuint) (count : Nat) (source : String)
  | glCompileShader (shader : GLuint)
  | glGetShaderiv (shader : GLuint) (pname : GLenum)
  | glGetShaderInfoLog (shader : GLuint) (bufSize : Nat)
  | glCreateProgram
  | glAttachShader (program shader : GLuint)
  | glLinkProgram (program : GLuint)
  | glGetProgramiv (program : GLuint) (pname : GLenum)
  | glGetProgramInfoLog (program : GLuint) (bufSize : Nat)
  | glDeleteShader (shader : GLuint)
  | glGenVertexArrays (n : Nat)
  | glBindVertexArray (array : GLuint)
  | glVertexAttribPointer (index : GLuint) (size : GLint) (type : GLenum)
      (normalized : Bool) (stride : Nat) (offset : Nat)
  | glEnableVertexAttribArray (index : GLuint)
  | glfwWindowShouldClose
  | glfwGetKey (key : Key)
  | glfwSetWindowShouldClose (value : Bool)
  | glClear (mask : GLenum)
  | glUseProgram (program : GLuint)
  | glDrawArrays (mode : GLenum) (first : GLint) (count : GLint)
  | glfwSwapBuffers
  | glfwPollEvents
  | cout (line : String)

/-- What a poll can dispatch: a key changes state, the framebuffer is resized,
or the platform writes the close flag of the window (a close request writes
true). -/
inductive Event where
  | key (key : Key) (action : KeyAction)
  | framebufferSize (width height : GLint)
  | shouldClose (value : Bool)
  deriving DecidableEq

/-- The state the program acts on: the window (keys, close flag, registered
resize callback), the GL context (viewport, clear colour, bindings, uploads,
attribute layouts, enabled slots, the colour of the last clear), and the trace
of the calls issued so far, oldest first. -/
structure World where
  keys : KeyState
  shouldClose : Bool
  resizeCallback : Bool
  viewport : Viewport
  clearColor : Color
  arrayBuffer : GLuint
  vertexArray : GLuint
  program : GLuint
  uploads : List (GLuint × List GLfloat)
  attribPointers : List AttribPointer
  enabledAttribs : List (GLuint × GLuint)
  clearedWith : Option Color
  trace : List Call

/-- The window glfwCreateWindow hands back: its close flag and its key state. -/
structure Window where
  shouldClose : Bool
  keys : KeyState

/-- The answers of the two libraries to the calls of the setup, in program
order.  A status of 0 reports failure; gladLoadGLLoader returning 0 reports
failure; window = none is the NULL window. -/
structure Platform where
  window : Option Window
  gladLoaded : Int
  VBO : GLuint
  vertexShader : GLuint
  vertexStatus : GLint
  vertexLog : String
  fragmentShader : GLuint
  fragmentStatus : GLint
  fragmentLog : String
  shaderProgram : GLuint
  linkStatus : GLint
  programLog : String
  VAO : GLuint

/-! ## Constants of the source -/

def SCR_WIDTH : Nat := 800

def SCR_HEIGHT : Nat := 600

def vertexShaderSource : String :=
  "#version 330 core\nlayout (location = 0) in vec3 aPos;\nvoid main()\x7b\tgl_Position = vec4(aPos.x, aPos.y, aPos.z, 1.0);\x7d"

def fragmentShaderSource : String :=
  "#version 330 core\nout vec4 FragColor;\nvoid main()\x7b\tFragColor = vec4(1.0f, 0.5f, 0.2f, 1.0f);\x7d"

/-- The array vertices of main. -/
def vertices : List GLfloat :=
  [ 0.0,  0.5, 0.0,
   -0.5, -0.5, 0.0,
    0.5, -0.5, 0.0]

/-- The size in bytes of a float. -/
def sizeof_float : Nat := 4

/-- The world before main runs: nothing bound, nothing uploaded, no call issued. -/
def World.start : World :=
  { keys := ⟨.GLFW_RELEASE, .GLFW_RELEASE, .GLFW_RELEASE, .GLFW_RELEASE, .GLFW_RELEASE⟩
    shouldClose := false
    resizeCallback := false
    viewport := ⟨0, 0, 0, 0⟩
    clearColor := ⟨0, 0, 0, 0⟩
    arrayBuffer := 0
    vertexArray := 0
    program := 0
    uploads := []
    attribPointers := []
    enabledAttribs := []
    clearedWith := none
    trace := [] }

/-! ## The library calls -/

/-- Record one call at the end of the trace. -/
def issue (c : Call) (w : World) : World :=
  { w with trace := w.trace ++ [c] }

def glfwInit (w : World) : World :=
  issue .glfwInit w

def glfwWindowHint (hint : WindowHint) (value : HintValue) (w : World) : World :=
  issue (.glfwWindowHint hint value) w

/-- The platform answers with a window or with NULL; a created window brings
its close flag and key state. -/
def glfwCreateWindow (answer : Option Window) (width height : Nat) (title : String)
    (w : World) : Option Window × World :=
  let w := issue (.glfwCreateWindow width height title) w
  match answer with
  | none => (none, w)
  | some win => (some win, { w with shouldClose := win.shouldClose, keys := win.keys })

def glfwTerminate (w : World) : World :=
  issue .glfwTerminate w

def glfwMakeContextCurrent (w : World) : World :=
  issue .glfwMakeContextCurrent w

def gladLoadGLLoader (answer : Int) (w : World) : Int × World :=
  (answer, issue .gladLoadGLLoader w)

/-- The viewport becomes the rectangle the call asks for; what a driver does
with a negative or oversized dimension is not modelled. -/
def glViewport (x y width height : GLint) (w : World) : World :=
  { issue (.glViewport x y width height) w with viewport := ⟨x, y, width, height⟩ }

def glfwSetFramebufferSizeCallback (w : World) : World :=
  { issue .glfwSetFramebufferSizeCallback w with resizeCallback := true }

def glClearColor (red green blue alpha : GLfloat) (w : World) : World :=
  { issue (.glClearColor red green blue alpha) w with clearColor := ⟨red, green, blue, alpha⟩ }

def glGenBuffers (answer : GLuint) (n : Nat) (w : World) : GLuint × World :=
  (answer, issue (.glGenBuffers n) w)

/-- Only the GL_ARRAY_BUFFER binding point is modelled. -/
def glBindBuffer (target : GLenum) (buffer : GLuint) (w : World) : World :=
  { issue (.glBindBuffer target buffer) w with
    arrayBuffer := if target = .GL_ARRAY_BUFFER then buffer else w.arrayBuffer }

/-- The upload of size bytes goes to the buffer bound to the target at the
moment of the call. -/
def glBufferData (target : GLenum) (size : Nat) (data : List GLfloat) (usage : GLenum)
    (w : World) : World :=
  { issue (.glBufferData target size data usage) w with
    uploads :=
      if target = .GL_ARRAY_BUFFER then
        w.uploads ++ [(w.arrayBuffer, data.take (size / sizeof_float))]
      else w.uploads }

def glCreateShader (answer : GLuint) (type : GLenum) (w : World) : GLuint × World :=
  (answer, issue (.glCreateShader type) w)

def glShaderSource (shader : GLuint) (count : Nat) (source : String) (w : World) : World :=
  issue (.glShaderSource shader count source) w

def glCompileShader (shader : GLuint) (w : World) : World :=
  issue (.glCompileShader shader) w

def glGetShaderiv (answer : GLint) (shader : GLuint) (pname : GLenum) (w : World) :
    GLint × World :=
  (answer, issue (.glGetShaderiv shader pname) w)

/-- The log is cut to bufSize - 1 characters (the last place holds the
terminator). -/
def glGetShaderInfoLog (answer : String) (shader : GLuint) (bufSize : Nat) (w : World) :
    String × World :=
  (String.mk (answer.toList.take (bufSize - 1)), issue (.glGetShaderInfoLog shader bufSize) w)

def glCreateProgram (answer : GLuint) (w : World) : GLuint × World :=
  (answer, issue .glCreateProgram w)

def glAttachShader (program shader : GLuint) (w : World) : World :=
  issue (.glAttachShader program shader) w

def glLinkProgram (program : GLuint) (w : World) : World :=
  issue (.glLinkProgram program) w

def glGetProgramiv (answer : GLint) (program : GLuint) (pname : GLenum) (w : World) :
    GLint × World :=
  (answer, issue (.glGetProgramiv program pname) w)

def glGetProgramInfoLog (answer : String) (program : GLuint) (bufSize : Nat) (w : World) :
    String × World :=
  (String.mk (answer.toList.take (bufSize - 1)), issue (.glGetProgramInfoLog program bufSize) w)

def glDeleteShader (shader : GLuint) (w : World) : World :=
  issue (.glDeleteShader shader) w

def glGenVertexArrays (answer : GLuint) (n : Nat) (w : World) : GLuint × World :=
  (answer, issue (.glGenVertexArrays n) w)

def glBindVertexArray (array : GLuint) (w : World) : World :=
  { issue (.glBindVertexArray array) w with vertexArray := array }

/-- The layout is recorded with the vertex array object and the array buffer
bound at the moment of the call. -/
def glVertexAttribPointer (index : GLuint) (size : GLint) (type : GLenum) (normalized : Bool)
    (stride : Nat) (offset : Nat) (w : World) : World :=
  { issue (.glVertexAttribPointer index size type normalized stride offset) w with
    attribPointers := w.attribPointers ++
      [⟨w.vertexArray, w.arrayBuffer, index, size, type, normalized, stride, offset⟩] }

/-- The slot is enabled in the vertex array object bound at the moment of the call. -/
def glEnableVertexAttribArray (index : GLuint) (w : World) : World :=
  { issue (.glEnableVertexAttribArray index) w with
    enabledAttribs := w.enabledAttribs ++ [(w.vertexArray, index)] }

def glfwWindowShouldClose (w : World) : Bool × World :=
  (w.shouldClose, issue .glfwWindowShouldClose w)

def glfwGetKey (key : Key) (w : World) : KeyAction × World :=
  let w1 := issue (.glfwGetKey key) w
  match key with
  | .GLFW_KEY_ESCAPE => (w.keys.escape, w1)
  | .GLFW_KEY_Q => (w.keys.q, w1)
  | .GLFW_KEY_R => (w.keys.r, w1)
  | .GLFW_KEY_G => (w.keys.g, w1)
  | .GLFW_KEY_B => (w.keys.b, w1)

def glfwSetWindowShouldClose (value : Bool) (w : World) : World :=
  { issue (.glfwSetWindowShouldClose value) w with shouldClose := value }

/-- The colour buffer is filled with the clear colour current at the call. -/
def glClear (mask : GLenum) (w : World) : World :=
  { issue (.glClear mask) w with
    clearedWith := if mask = .GL_COLOR_BUFFER_BIT then some w.clearColor else w.clearedWith }

def glUseProgram (program : GLuint) (w : World) : World :=
  { issue (.glUseProgram program) w with program := program }

def glDrawArrays (mode : GLenum) (first count : GLint) (w : World) : World :=
  issue (.glDrawArrays mode first count) w

def glfwSwapBuffers (w : World) : World :=
  issue .glfwSwapBuffers w

/-- One statement cout << ... << endl. -/
def cout (line : String) (w : World) : World :=
  issue (.cout line) w

/-! ## The two handlers of the source -/

/-- Lines 247-250 of main.cpp. -/
def framebuffer_size_callback (width height : GLint) (w : World) : World :=
  glViewport 0 0 width height w

/-- Lines 252-264 of main.cpp.  The second key of the || is asked only when the
first is not pressed. -/
def process_input (w : World) : World :=
  let (escape, w) := glfwGetKey .GLFW_KEY_ESCAPE w
  let (close, w) :=
    if escape = .GLFW_PRESS then (true, w)
    else
      let (q, w) := glfwGetKey .GLFW_KEY_Q w
      (decide (q = .GLFW_PRESS), w)
  let w := if close then glfwSetWindowShouldClose true w else w
  let (r, w) := glfwGetKey .GLFW_KEY_R w
  let w := if r = .GLFW_PRESS then glClearColor 1.0 0.2 0.2 1.0 w else w
  let (g, w) := glfwGetKey .GLFW_KEY_G w
  let w := if g = .GLFW_PRESS then glClearColor 0.2 1.0 0.2 1.0 w else w
  let (b, w) := glfwGetKey .GLFW_KEY_B w
  let w := if b = .GLFW_PRESS then glClearColor 0.2 0.2 1.0 1.0 w else w
  w

/-- The platform dispatches one event.  A resize reaches framebuffer_size_callback
when that callback is registered. -/
def dispatch (e : Event) (w : World) : World :=
  match e with
  | .key .GLFW_KEY_ESCAPE a => { w with keys := { w.keys with escape := a } }
  | .key .GLFW_KEY_Q a => { w with keys := { w.keys with q := a } }
  | .key .GLFW_KEY_R a => { w with keys := { w.keys with r := a } }
  | .key .GLFW_KEY_G a => { w with keys := { w.keys with g := a } }
  | .key .GLFW_KEY_B a => { w with keys := { w.keys with b := a } }
  | .framebufferSize width height =>
    if w.resizeCallback then framebuffer_size_callback width height w else w
  | .shouldClose value => { w with shouldClose := value }

/-- The poll dispatches the batch of events the platform has queued, in order. -/
def glfwPollEvents (events : List Event) (w : World) : World :=
  events.foldl (fun w e => dispatch e w) (issue .glfwPollEvents w)

/-! ## main -/

/-- The body of the while loop, lines 201-235 of main.cpp; events is the batch
the poll at its end dispatches. -/
def loopBody (shaderProgram VAO : GLuint) (events : List Event) (w : World) : World :=
  let w := process_input w
  let w := glClear .GL_COLOR_BUFFER_BIT w
  let w := glUseProgram shaderProgram w
  let w := glBindVertexArray VAO w
  let w := glDrawArrays .GL_TRIANGLES 0 3 w
  let w := glfwSwapBuffers w
  let w := glfwPollEvents events w
  w

/-- The while loop, lines 200-235 of main.cpp, run on the batches of events the
platform hands to the successive polls.  The answer is true when the loop has
ended (the close flag was found set), false when the batches ran out with the
loop still running. -/
def renderLoop (shaderProgram VAO : GLuint) : List (List Event) → World → Bool × World
  | [], w => glfwWindowShouldClose w
  | events :: rest, w =>
    let (close, w) := glfwWindowShouldClose w
    if close then (true, w)
    else renderLoop shaderProgram VAO rest (loopBody shaderProgram VAO events w)

/-- Lines 50-197 of main.cpp: everything main does before the while loop.  The
result is the world reached, and either the exit code of an early return or the
two locals the loop goes on to use, shaderProgram and VAO. -/
def setup (p : Platform) : World × Except Int (GLuint × GLuint) :=
  let w := glfwInit World.start
  let w := glfwWindowHint .GLFW_CONTEXT_VERSION_MAJOR (.num 3) w
  let w := glfwWindowHint .GLFW_CONTEXT_VERSION_MINOR (.num 3) w
  let w := glfwWindowHint .GLFW_OPENGL_PROFILE .GLFW_OPENGL_CORE_PROFILE w
  let (window, w) := glfwCreateWindow p.window SCR_WIDTH SCR_HEIGHT "Learn OpenGL" w
  if window.isNone then
    let w := cout "Failed to create GLFW window" w
    let w := glfwTerminate w
    (w, .error (-1))
  else
  let w := glfwMakeContextCurrent w
  let (loaded, w) := gladLoadGLLoader p.gladLoaded w
  if loaded = 0 then
    let w := cout "Failed to initialize glad" w
    (w, .error (-1))
  else
  let w := glViewport 0 0 SCR_WIDTH SCR_HEIGHT w
  let w := glfwSetFramebufferSizeCallback w
  let w := glClearColor 0.0 0.0 0.0 1.0 w
  let (VBO, w) := glGenBuffers p.VBO 1 w
  let w := glBindBuffer .GL_ARRAY_BUFFER VBO w
  let w := glBufferData .GL_ARRAY_BUFFER (vertices.length * sizeof_float) vertices
    .GL_STATIC_DRAW w
  let (vertexShader, w) := glCreateShader p.vertexShader .GL_VERTEX_SHADER w
  let w := glShaderSource vertexShader 1 vertexShaderSource w
  let w := glCompileShader vertexShader w
  let (success, w) := glGetShaderiv p.vertexStatus vertexShader .GL_COMPILE_STATUS w
  let w :=
    if success = 0 then
      let (infoLog, w) := glGetShaderInfoLog p.vertexLog vertexShader 512 w
      let w := cout "ERROR: Vertex shader compilation failed" w
      cout ("Information is: " ++ infoLog) w
    else w
  let (fragmentShader, w) := glCreateShader p.fragmentShader .GL_FRAGMENT_SHADER w
  let w := glShaderSource fragmentShader 1 fragmentShaderSource w
  let w := glCompileShader fragmentShader w
  let (success, w) := glGetShaderiv p.fragmentStatus fragmentShader .GL_COMPILE_STATUS w
  let w :=
    if success = 0 then
      let (infoLog, w) := glGetShaderInfoLog p.fragmentLog fragmentShader 512 w
      let w := cout "ERROR: Fragment shader compilation failed" w
      cout ("Information is: " ++ infoLog) w
    else w
  let (shaderProgram, w) := glCreateProgram p.shaderProgram w
  let w := glAttachShader shaderProgram vertexShader w
  let w := glAttachShader shaderProgram fragmentShader w
  let w := glLinkProgram shaderProgram w
  let (success, w) := glGetProgramiv p.linkStatus shaderProgram .GL_LINK_STATUS w
  let w :=
    if success = 0 then
      let (infoLog, w) := glGetProgramInfoLog p.programLog shaderProgram 512 w
      let w := cout "ERROR: Shader program link failed" w
      cout ("Information is: " ++ infoLog) w
    else w
  let w := glDeleteShader vertexShader w
  let w := glDeleteShader fragmentShader w
  let (VAO, w) := glGenVertexArrays p.VAO 1 w
  let w := glBindVertexArray VAO w
  let w := glVertexAttribPointer 0 3 .GL_FLOAT false (3 * sizeof_float) 0 w
  let w := glEnableVertexAttribArray 0 w
  let w := glBindVertexArray 0 w
  let w := glBindBuffer .GL_ARRAY_BUFFER 0 w
  (w, .ok (shaderProgram, VAO))

/-- Lines 48-241 of main.cpp: the setup, then the loop on the batches of events
handed to the successive polls, then the exit.  The result is the final world
and the exit code; the code is none when the batches ran out with the loop
still running. -/
def main (p : Platform) (polls : List (List Event)) : World × Option Int :=
  match setup p with
  | (w, .error code) => (w, some code)
  | (w, .ok (shaderProgram, VAO)) =>
    let (ended, w) := renderLoop shaderProgram VAO polls w
    if ended then
      let w := glfwTerminate w
      (w, some 0)
    else (w, none)

/-! ## Vocabulary of the statements -/

/-- The lines printed, in order. -/
def printed (t : List Call) : List String :=
  t.filterMap fun c => match c with
    | .cout line => some line
    | _ => none

/-- The draw commands of a trace, in order. -/
def draws (t : List Call) : List Call :=
  t.filter fun c => match c with
    | .glDrawArrays _ _ _ => true
    | _ => false

/-- The commands of a trace that write to a buffer, in order. -/
def bufferWrites (t : List Call) : List Call :=
  t.filter fun c => match c with
    | .glBufferData _ _ _ _ => true
    | _ => false

/-- The calls framebuffer_size_callback issues while a poll dispatches a batch
of events: one glViewport for each resize. -/
def resizeCalls (events : List Event) : List Call :=
  events.filterMap fun e => match e with
    | .framebufferSize width height => some (.glViewport 0 0 width height)
    | _ => none

/-- The calls of a trace that bind a buffer or a vertex array object, declare
an attribute layout or enable a slot, in order. -/
def layoutCalls (t : List Call) : List Call :=
  t.filter fun c => match c with
    | .glBindBuffer _ _ => true
    | .glBindVertexArray _ => true
    | .glVertexAttribPointer _ _ _ _ _ _ => true
    | .glEnableVertexAttribArray _ => true
    | _ => false

/-- The world at the head of the loop once the loop has run one iteration on
each of the given batches; none when the loop ended before using them all. -/
def loopHead (shaderProgram VAO : GLuint) : List (List Event) → World → Option World
  | [], w => some w
  | events :: rest, w =>
    if w.shouldClose then none
    else loopHead shaderProgram VAO rest
      (loopBody shaderProgram VAO events (glfwWindowShouldClose w).2)

/-- The platform of a plain run: the window is created with its close flag
clear and no key down, the loader succeeds, and the three statuses report
success. -/
def plainPlatform : Platform :=
  { window := some ⟨false, ⟨.GLFW_RELEASE, .GLFW_RELEASE, .GLFW_RELEASE, .GLFW_RELEASE,
      .GLFW_RELEASE⟩⟩
    gladLoaded := 1
    VBO := 1
    vertexShader := 1
    vertexStatus := 1
    vertexLog := ""
    fragmentShader := 2
    fragmentStatus := 1
    fragmentLog := ""
    shaderProgram := 3
    linkStatus := 1
    programLog := ""
    VAO := 1 }

/-- The platform on which the window is created and the function loader
reports failure. -/
def noLoaderPlatform : Platform :=
  { plainPlatform with gladLoaded := 0 }

/-- The platform on which window creation fails. -/
def noWindowPlatform : Platform :=
  { plainPlatform with window := none }

/-- A world with the given keys down, everything else as at the start. -/
def keysDown (keys : KeyState) : World :=
  { World.start with keys := keys }

/-! ## process_input -/

/-- The close flag after process_input: set when Escape or Q is pressed, else
as before. -/
theorem process_input_shouldClose (w : World) :
    (process_input w).shouldClose =
      if w.keys.escape = .GLFW_PRESS ∨ w.keys.q = .GLFW_PRESS then true else w.shouldClose := by
  cases he : w.keys.escape <;> cases hq : w.keys.q <;> cases hr : w.keys.r <;>
    cases hg : w.keys.g <;> cases hb : w.keys.b <;>
    simp [process_input, glfwGetKey, glfwSetWindowShouldClose, glClearColor, issue, he, hq, hr,
      hg, hb]

/-- The clear colour after process_input: the colour of the last pressed key
in the order R, G, B, else as before. -/
theorem process_input_clearColor (w : World) :
    (process_input w).clearColor =
      if w.keys.b = .GLFW_PRESS then ⟨0.2, 0.2, 1.0, 1.0⟩
      else if w.keys.g = .GLFW_PRESS then ⟨0.2, 1.0, 0.2, 1.0⟩
      else if w.keys.r = .GLFW_PRESS then ⟨1.0, 0.2, 0.2, 1.0⟩
      else w.clearColor := by
  cases he : w.keys.escape <;> cases hq : w.keys.q <;> cases hr : w.keys.r <;>
    cases hg : w.keys.g <;> cases hb : w.keys.b <;>
    simp [process_input, glfwGetKey, glfwSetWindowShouldClose, glClearColor, issue, he, hq, hr,
      hg, hb]

/-- What process_input leaves alone: the viewport, the keys, the registered
callback, the bindings, the uploads, the attribute layouts, the enabled slots
and the colour of the last clear. -/
theorem process_input_frame (w : World) :
    (process_input w).viewport = w.viewport ∧ (process_input w).keys = w.keys ∧
    (process_input w).resizeCallback = w.resizeCallback ∧
    (process_input w).arrayBuffer = w.arrayBuffer ∧
    (process_input w).vertexArray = w.vertexArray ∧
    (process_input w).program = w.program ∧
    (process_input w).uploads = w.uploads ∧
    (process_input w).attribPointers = w.attribPointers ∧
    (process_input w).enabledAttribs = w.enabledAttribs ∧
    (process_input w).clearedWith = w.clearedWith := by
  cases he : w.keys.escape <;> cases hq : w.keys.q <;> cases hr : w.keys.r <;>
    cases hg : w.keys.g <;> cases hb : w.keys.b <;>
    simp [process_input, glfwGetKey, glfwSetWindowShouldClose, glClearColor, issue, he, hq, hr,
      hg, hb]

/-- The calls of process_input, appended to the trace in the order of the
source. -/
theorem process_input_trace (w : World) :
    (process_input w).trace = w.trace ++
      ([.glfwGetKey .GLFW_KEY_ESCAPE] ++
       (if w.keys.escape = .GLFW_PRESS then [] else [.glfwGetKey .GLFW_KEY_Q]) ++
       (if w.keys.escape = .GLFW_PRESS ∨ w.keys.q = .GLFW_PRESS then
          [.glfwSetWindowShouldClose true] else []) ++
       [.glfwGetKey .GLFW_KEY_R] ++
       (if w.keys.r = .GLFW_PRESS then [.glClearColor 1.0 0.2 0.2 1.0] else []) ++
       [.glfwGetKey .GLFW_KEY_G] ++
       (if w.keys.g = .GLFW_PRESS then [.glClearColor 0.2 1.0 0.2 1.0] else []) ++
       [.glfwGetKey .GLFW_KEY_B] ++
       (if w.keys.b = .GLFW_PRESS then [.glClearColor 0.2 0.2 1.0 1.0] else [])) := by
  cases he : w.keys.escape <;> cases hq : w.keys.q <;> cases hr : w.keys.r <;>
    cases hg : w.keys.g <;> cases hb : w.keys.b <;>
    simp [process_input, glfwGetKey, glfwSetWindowShouldClose, glClearColor, issue, he, hq, hr,
      hg, hb]

/-- No call of process_input is a draw. -/
theorem process_input_draws (w : World) :
    draws (process_input w).trace = draws w.trace := by
  rw [process_input_trace]
  cases w.keys.escape <;> cases w.keys.q <;> cases w.keys.r <;>
    cases w.keys.g <;> cases w.keys.b <;> simp [draws]

/-- No call of process_input writes to a buffer. -/
theorem process_input_bufferWrites (w : World) :
    bufferWrites (process_input w).trace = bufferWrites w.trace := by
  rw [process_input_trace]
  cases w.keys.escape <;> cases w.keys.q <;> cases w.keys.r <;>
    cases w.keys.g <;> cases w.keys.b <;> simp [bufferWrites]

/-! ## The setup -/

/-- The calls of a setup that passes the two fatal checks, in order. -/
theorem setup_trace (p : Platform) (win : Window) (hwin : p.window = some win)
    (hglad : p.gladLoaded ≠ 0) :
    (setup p).1.trace =
      [.glfwInit,
       .glfwWindowHint .GLFW_CONTEXT_VERSION_MAJOR (.num 3),
       .glfwWindowHint .GLFW_CONTEXT_VERSION_MINOR (.num 3),
       .glfwWindowHint .GLFW_OPENGL_PROFILE .GLFW_OPENGL_CORE_PROFILE,
       .glfwCreateWindow 800 600 "Learn OpenGL",
       .glfwMakeContextCurrent,
       .gladLoadGLLoader,
       .glViewport 0 0 800 600,
       .glfwSetFramebufferSizeCallback,
       .glClearColor 0.0 0.0 0.0 1.0,
       .glGenBuffers 1,
       .glBindBuffer .GL_ARRAY_BUFFER p.VBO,
       .glBufferData .GL_ARRAY_BUFFER 36 vertices .GL_STATIC_DRAW,
       .glCreateShader .GL_VERTEX_SHADER,
       .glShaderSource p.vertexShader 1 vertexShaderSource,
       .glCompileShader p.vertexShader,
       .glGetShaderiv p.vertexShader .GL_COMPILE_STATUS] ++
      (if p.vertexStatus = 0 then
        [.glGetShaderInfoLog p.vertexShader 512,
         .cout "ERROR: Vertex shader compilation failed",
         .cout ("Information is: " ++ String.mk (p.vertexLog.toList.take 511))]
       else []) ++
      [.glCreateShader .GL_FRAGMENT_SHADER,
       .glShaderSource p.fragmentShader 1 fragmentShaderSource,
       .glCompileShader p.fragmentShader,
       .glGetShaderiv p.fragmentShader .GL_COMPILE_STATUS] ++
      (if p.fragmentStatus = 0 then
        [.glGetShaderInfoLog p.fragmentShader 512,
         .cout "ERROR: Fragment shader compilation failed",
         .cout ("Information is: " ++ String.mk (p.fragmentLog.toList.take 511))]
       else []) ++
      [.glCreateProgram,
       .glAttachShader p.shaderProgram p.vertexShader,
       .glAttachShader p.shaderProgram p.fragmentShader,
       .glLinkProgram p.shaderProgram,
       .glGetProgramiv p.shaderProgram .GL_LINK_STATUS] ++
      (if p.linkStatus = 0 then
        [.glGetProgramInfoLog p.shaderProgram 512,
         .cout "ERROR: Shader program link failed",
         .cout ("Information is: " ++ String.mk (p.programLog.toList.take 511))]
       else []) ++
      [.glDeleteShader p.vertexShader,
       .glDeleteShader p.fragmentShader,
       .glGenVertexArrays 1,
       .glBindVertexArray p.VAO,
       .glVertexAttribPointer 0 3 .GL_FLOAT false 12 0,
       .glEnableVertexAttribArray 0,
       .glBindVertexArray 0,
       .glBindBuffer .GL_ARRAY_BUFFER 0] := by
  by_cases hv : p.vertexStatus = 0 <;> by_cases hf : p.fragmentStatus = 0 <;>
    by_cases hl : p.linkStatus = 0 <;>
    simp [setup, glfwInit, glfwWindowHint, glfwCreateWindow, glfwMakeContextCurrent,
      gladLoadGLLoader, glViewport, glfwSetFramebufferSizeCallback, glClearColor, glGenBuffers,
      glBindBuffer, glBufferData, glCreateShader, glShaderSource, glCompileShader, glGetShaderiv,
      glGetShaderInfoLog, glCreateProgram, glAttachShader, glLinkProgram, glGetProgramiv,
      glGetProgramInfoLog, glDeleteShader, glGenVertexArrays, glBindVertexArray,
      glVertexAttribPointer, glEnableVertexAttribArray, cout, issue, World.start, hwin, hglad,
      hv, hf, hl, SCR_WIDTH, SCR_HEIGHT, sizeof_float, vertices]


/-- The world a setup that passes the two fatal checks hands to the loop, and
the two locals. -/
theorem setup_state (p : Platform) (win : Window) (hwin : p.window = some win)
    (hglad : p.gladLoaded ≠ 0) :
    (setup p).2 = .ok (p.shaderProgram, p.VAO) ∧
    (setup p).1.keys = win.keys ∧
    (setup p).1.shouldClose = win.shouldClose ∧
    (setup p).1.resizeCallback = true ∧
    (setup p).1.viewport = ⟨0, 0, 800, 600⟩ ∧
    (setup p).1.clearColor = ⟨0.0, 0.0, 0.0, 1.0⟩ ∧
    (setup p).1.arrayBuffer = 0 ∧
    (setup p).1.vertexArray = 0 ∧
    (setup p).1.program = 0 ∧
    (setup p).1.uploads = [(p.VBO, vertices)] ∧
    (setup p).1.attribPointers = [⟨p.VAO, p.VBO, 0, 3, .GL_FLOAT, false, 12, 0⟩] ∧
    (setup p).1.enabledAttribs = [(p.VAO, 0)] ∧
    (setup p).1.clearedWith = none := by
  by_cases hv : p.vertexStatus = 0 <;> by_cases hf : p.fragmentStatus = 0 <;>
    by_cases hl : p.linkStatus = 0 <;>
    simp [setup, glfwInit, glfwWindowHint, glfwCreateWindow, glfwMakeContextCurrent,
      gladLoadGLLoader, glViewport, glfwSetFramebufferSizeCallback, glClearColor, glGenBuffers,
      glBindBuffer, glBufferData, glCreateShader, glShaderSource, glCompileShader, glGetShaderiv,
      glGetShaderInfoLog, glCreateProgram, glAttachShader, glLinkProgram, glGetProgramiv,
      glGetProgramInfoLog, glDeleteShader, glGenVertexArrays, glBindVertexArray,
      glVertexAttribPointer, glEnableVertexAttribArray, cout, issue, World.start, hwin, hglad,
      hv, hf, hl, SCR_WIDTH, SCR_HEIGHT, sizeof_float, vertices]

/-- The run when window creation fails. -/
theorem setup_no_window (p : Platform) (hwin : p.window = none) :
    (setup p).2 = .error (-1) ∧
    (setup p).1.trace =
      [.glfwInit,
       .glfwWindowHint .GLFW_CONTEXT_VERSION_MAJOR (.num 3),
       .glfwWindowHint .GLFW_CONTEXT_VERSION_MINOR (.num 3),
       .glfwWindowHint .GLFW_OPENGL_PROFILE .GLFW_OPENGL_CORE_PROFILE,
       .glfwCreateWindow 800 600 "Learn OpenGL",
       .cout "Failed to create GLFW window",
       .glfwTerminate] ∧
    (setup p).1.uploads = [] := by
  simp [setup, glfwInit, glfwWindowHint, glfwCreateWindow, glfwTerminate, cout, issue,
    World.start, hwin, SCR_WIDTH, SCR_HEIGHT]

/-- The run when the function loader reports failure. -/
theorem setup_no_loader (p : Platform) (win : Window) (hwin : p.window = some win)
    (hglad : p.gladLoaded = 0) :
    (setup p).2 = .error (-1) ∧
    (setup p).1.trace =
      [.glfwInit,
       .glfwWindowHint .GLFW_CONTEXT_VERSION_MAJOR (.num 3),
       .glfwWindowHint .GLFW_CONTEXT_VERSION_MINOR (.num 3),
       .glfwWindowHint .GLFW_OPENGL_PROFILE .GLFW_OPENGL_CORE_PROFILE,
       .glfwCreateWindow 800 600 "Learn OpenGL",
       .glfwMakeContextCurrent,
       .gladLoadGLLoader,
       .cout "Failed to initialize glad"] ∧
    (setup p).1.uploads = [] := by
  simp [setup, glfwInit, glfwWindowHint, glfwCreateWindow, glfwMakeContextCurrent,
    gladLoadGLLoader, cout, issue, World.start, hwin, hglad, SCR_WIDTH, SCR_HEIGHT]

/-! ## The poll -/

/-- What dispatching one event leaves alone. -/
theorem dispatch_frame (e : Event) (w : World) :
    (dispatch e w).resizeCallback = w.resizeCallback ∧
    (dispatch e w).clearColor = w.clearColor ∧
    (dispatch e w).uploads = w.uploads ∧
    (dispatch e w).attribPointers = w.attribPointers ∧
    (dispatch e w).enabledAttribs = w.enabledAttribs ∧
    (dispatch e w).clearedWith = w.clearedWith ∧
    (dispatch e w).arrayBuffer = w.arrayBuffer ∧
    (dispatch e w).vertexArray = w.vertexArray ∧
    (dispatch e w).program = w.program := by
  cases e with
  | key k a => cases k <;> simp [dispatch]
  | framebufferSize a b =>
    by_cases h : w.resizeCallback = true <;>
      simp [dispatch, framebuffer_size_callback, glViewport, issue, h]
  | shouldClose v => simp [dispatch]

/-- The calls dispatching one event adds to the trace. -/
theorem dispatch_trace (e : Event) (w : World) :
    (dispatch e w).trace = w.trace ++ (if w.resizeCallback then resizeCalls [e] else []) := by
  cases e with
  | key k a => cases k <;> simp [dispatch, resizeCalls]
  | framebufferSize a b =>
    by_cases h : w.resizeCallback = true <;>
      simp [dispatch, framebuffer_size_callback, glViewport, issue, h, resizeCalls]
  | shouldClose v => simp [dispatch, resizeCalls]

/-- An event that is no resize leaves the viewport alone. -/
theorem dispatch_viewport (e : Event) (w : World)
    (h : ∀ a b, e ≠ .framebufferSize a b) : (dispatch e w).viewport = w.viewport := by
  cases e with
  | key k a => cases k <;> simp [dispatch]
  | framebufferSize a b => exact absurd rfl (h a b)
  | shouldClose v => simp [dispatch]

/-- What a poll leaves alone. -/
theorem glfwPollEvents_frame (events : List Event) (w : World) :
    (glfwPollEvents events w).resizeCallback = w.resizeCallback ∧
    (glfwPollEvents events w).clearColor = w.clearColor ∧
    (glfwPollEvents events w).uploads = w.uploads ∧
    (glfwPollEvents events w).attribPointers = w.attribPointers ∧
    (glfwPollEvents events w).enabledAttribs = w.enabledAttribs ∧
    (glfwPollEvents events w).clearedWith = w.clearedWith ∧
    (glfwPollEvents events w).arrayBuffer = w.arrayBuffer ∧
    (glfwPollEvents events w).vertexArray = w.vertexArray ∧
    (glfwPollEvents events w).program = w.program := by
  have key : ∀ (es : List Event) (v : World),
      (es.foldl (fun w e => dispatch e w) v).resizeCallback = v.resizeCallback ∧
      (es.foldl (fun w e => dispatch e w) v).clearColor = v.clearColor ∧
      (es.foldl (fun w e => dispatch e w) v).uploads = v.uploads ∧
      (es.foldl (fun w e => dispatch e w) v).attribPointers = v.attribPointers ∧
      (es.foldl (fun w e => dispatch e w) v).enabledAttribs = v.enabledAttribs ∧
      (es.foldl (fun w e => dispatch e w) v).clearedWith = v.clearedWith ∧
      (es.foldl (fun w e => dispatch e w) v).arrayBuffer = v.arrayBuffer ∧
      (es.foldl (fun w e => dispatch e w) v).vertexArray = v.vertexArray ∧
      (es.foldl (fun w e => dispatch e w) v).program = v.program := by
    intro es
    induction es with
    | nil => intro v; simp
    | cons e es ih =>
      intro v
      obtain ⟨h1, h2, h3, h4, h5, h6, h7, h8, h9⟩ := ih (dispatch e v)
      obtain ⟨d1, d2, d3, d4, d5, d6, d7, d8, d9⟩ := dispatch_frame e v
      simp only [List.foldl_cons]
      exact ⟨h1.trans d1, h2.trans d2, h3.trans d3, h4.trans d4, h5.trans d5, h6.trans d6,
        h7.trans d7, h8.trans d8, h9.trans d9⟩
  simpa [glfwPollEvents, issue] using key events (issue .glfwPollEvents w)

/-- The calls a poll adds to the trace: the poll itself, then one glViewport
for each resize when the callback is registered. -/
theorem glfwPollEvents_trace (events : List Event) (w : World) :
    (glfwPollEvents events w).trace =
      w.trace ++ .glfwPollEvents :: (if w.resizeCallback then resizeCalls events else []) := by
  have key : ∀ (es : List Event) (v : World),
      (es.foldl (fun w e => dispatch e w) v).trace =
        v.trace ++ (if v.resizeCallback then resizeCalls es else []) := by
    intro es
    induction es with
    | nil => intro v; simp [resizeCalls]
    | cons e es ih =>
      intro v
      simp only [List.foldl_cons]
      rw [ih, dispatch_trace, (dispatch_frame e v).1]
      by_cases h : v.resizeCallback = true
      · simp [h, resizeCalls, List.filterMap_cons]
        cases e <;> simp
      · simp [h]
  simpa [glfwPollEvents, issue] using key events (issue .glfwPollEvents w)

/-- A poll that dispatches no resize leaves the viewport alone. -/
theorem glfwPollEvents_viewport (events : List Event) (w : World)
    (h : ∀ e ∈ events, ∀ a b, e ≠ .framebufferSize a b) :
    (glfwPollEvents events w).viewport = w.viewport := by
  have key : ∀ (es : List Event) (v : World), (∀ e ∈ es, ∀ a b, e ≠ .framebufferSize a b) →
      (es.foldl (fun w e => dispatch e w) v).viewport = v.viewport := by
    intro es
    induction es with
    | nil => intro v _; simp
    | cons e es ih =>
      intro v hes
      simp only [List.foldl_cons]
      rw [ih _ (fun e he => hes e (List.mem_cons_of_mem _ he)),
        dispatch_viewport e v (hes e (List.mem_cons_self _ _))]
  simpa [glfwPollEvents, issue] using key events (issue .glfwPollEvents w) h

/-- When the callback is registered, a poll whose last event is a resize leaves
the viewport at the origin with the size of that resize. -/
theorem glfwPollEvents_resize_last (events : List Event) (width height : GLint) (w : World)
    (h : w.resizeCallback = true) :
    (glfwPollEvents (events ++ [.framebufferSize width height]) w).viewport =
      ⟨0, 0, width, height⟩ := by
  have hr : (glfwPollEvents events w).resizeCallback = true := by
    rw [(glfwPollEvents_frame events w).1, h]
  simp only [glfwPollEvents, List.foldl_append, List.foldl_cons, List.foldl_nil] at hr ⊢
  generalize List.foldl (fun w e => dispatch e w) (issue .glfwPollEvents w) events = v at hr
  simp [dispatch, hr, framebuffer_size_callback, glViewport, issue]

/-! ## The loop -/

/-- The calls of one iteration, in order. -/
theorem loopBody_trace (shaderProgram VAO : GLuint) (events : List Event) (w : World) :
    (loopBody shaderProgram VAO events w).trace =
      (process_input w).trace ++
      [.glClear .GL_COLOR_BUFFER_BIT, .glUseProgram shaderProgram, .glBindVertexArray VAO,
       .glDrawArrays .GL_TRIANGLES 0 3, .glfwSwapBuffers, .glfwPollEvents] ++
      (if w.resizeCallback then resizeCalls events else []) := by
  simp only [loopBody]
  rw [glfwPollEvents_trace]
  simp [glfwSwapBuffers, glDrawArrays, glBindVertexArray, glUseProgram, glClear, issue,
    (process_input_frame w).2.2.1]

/-- What one iteration does to the rest of the world. -/
theorem loopBody_frame (shaderProgram VAO : GLuint) (events : List Event) (w : World) :
    (loopBody shaderProgram VAO events w).resizeCallback = w.resizeCallback ∧
    (loopBody shaderProgram VAO events w).clearColor = (process_input w).clearColor ∧
    (loopBody shaderProgram VAO events w).clearedWith = some (process_input w).clearColor ∧
    (loopBody shaderProgram VAO events w).uploads = w.uploads ∧
    (loopBody shaderProgram VAO events w).attribPointers = w.attribPointers ∧
    (loopBody shaderProgram VAO events w).enabledAttribs = w.enabledAttribs := by
  obtain ⟨-, -, h3, -, -, -, h7, h8, h9, -⟩ := process_input_frame w
  simp only [loopBody]
  obtain ⟨p1, p2, p3, p4, p5, p6, -, -, -⟩ := glfwPollEvents_frame events
    (glfwSwapBuffers (glDrawArrays .GL_TRIANGLES 0 3 (glBindVertexArray VAO
      (glUseProgram shaderProgram (glClear .GL_COLOR_BUFFER_BIT (process_input w))))))
  rw [p1, p2, p3, p4, p5, p6]
  simp [glfwSwapBuffers, glDrawArrays, glBindVertexArray, glUseProgram, glClear, issue, h3, h7,
    h8, h9]

/-- An iteration whose poll dispatches no resize leaves the viewport alone. -/
theorem loopBody_viewport (shaderProgram VAO : GLuint) (events : List Event) (w : World)
    (h : ∀ e ∈ events, ∀ a b, e ≠ .framebufferSize a b) :
    (loopBody shaderProgram VAO events w).viewport = w.viewport := by
  simp only [loopBody]
  rw [glfwPollEvents_viewport _ _ h]
  simp [glfwSwapBuffers, glDrawArrays, glBindVertexArray, glUseProgram, glClear, issue,
    (process_input_frame w).1]

theorem resizeCalls_cons (e : Event) (es : List Event) :
    resizeCalls (e :: es) = resizeCalls [e] ++ resizeCalls es := by
  cases e <;> simp [resizeCalls, List.filterMap_cons]

theorem draws_append (s t : List Call) : draws (s ++ t) = draws s ++ draws t := by
  simp [draws]

theorem bufferWrites_append (s t : List Call) :
    bufferWrites (s ++ t) = bufferWrites s ++ bufferWrites t := by
  simp [bufferWrites]

theorem printed_append (s t : List Call) : printed (s ++ t) = printed s ++ printed t := by
  simp [printed]

/-- The resize callback issues no draw. -/
theorem draws_resizeCalls (events : List Event) : draws (resizeCalls events) = [] := by
  induction events with
  | nil => rfl
  | cons e es ih =>
    rw [resizeCalls_cons, draws_append, ih]
    cases e <;> simp [draws, resizeCalls]

/-- The resize callback issues no buffer write. -/
theorem bufferWrites_resizeCalls (events : List Event) :
    bufferWrites (resizeCalls events) = [] := by
  induction events with
  | nil => rfl
  | cons e es ih =>
    rw [resizeCalls_cons, bufferWrites_append, ih]
    cases e <;> simp [bufferWrites, resizeCalls]

/-- The resize callback prints nothing. -/
theorem printed_resizeCalls (events : List Event) : printed (resizeCalls events) = [] := by
  induction events with
  | nil => rfl
  | cons e es ih =>
    rw [resizeCalls_cons, printed_append, ih]
    cases e <;> simp [printed, resizeCalls]

/-- One iteration issues exactly one draw, of 3 vertices as triangles from
vertex 0. -/
theorem loopBody_draws (shaderProgram VAO : GLuint) (events : List Event) (w : World) :
    draws (loopBody shaderProgram VAO events w).trace =
      draws w.trace ++ [.glDrawArrays .GL_TRIANGLES 0 3] := by
  rw [loopBody_trace, draws_append, draws_append, process_input_draws]
  have h : draws (if w.resizeCallback = true then resizeCalls events else []) = [] := by
    split
    · exact draws_resizeCalls events
    · rfl
  rw [h]
  simp [draws]

/-- One iteration issues no buffer write. -/
theorem loopBody_bufferWrites (shaderProgram VAO : GLuint) (events : List Event) (w : World) :
    bufferWrites (loopBody shaderProgram VAO events w).trace = bufferWrites w.trace := by
  rw [loopBody_trace, bufferWrites_append, bufferWrites_append, process_input_bufferWrites]
  have h : bufferWrites (if w.resizeCallback = true then resizeCalls events else []) = [] := by
    split
    · exact bufferWrites_resizeCalls events
    · rfl
  rw [h]
  simp [bufferWrites]

/-- No call of process_input prints. -/
theorem process_input_printed (w : World) :
    printed (process_input w).trace = printed w.trace := by
  rw [process_input_trace]
  cases w.keys.escape <;> cases w.keys.q <;> cases w.keys.r <;>
    cases w.keys.g <;> cases w.keys.b <;> simp [printed]

/-- One iteration prints nothing. -/
theorem loopBody_printed (shaderProgram VAO : GLuint) (events : List Event) (w : World) :
    printed (loopBody shaderProgram VAO events w).trace = printed w.trace := by
  rw [loopBody_trace, printed_append, printed_append, process_input_printed]
  have h : printed (if w.resizeCallback = true then resizeCalls events else []) = [] := by
    split
    · exact printed_resizeCalls events
    · rfl
  rw [h]
  simp [printed]

/-- The loop entered with the close flag set ends at once. -/
theorem renderLoop_closed (shaderProgram VAO : GLuint) (polls : List (List Event)) (w : World)
    (h : w.shouldClose = true) :
    renderLoop shaderProgram VAO polls w = (true, issue .glfwWindowShouldClose w) := by
  cases polls <;> simp [renderLoop, glfwWindowShouldClose, h]

/-- The loop entered with the close flag clear runs one iteration and goes on. -/
theorem renderLoop_running (shaderProgram VAO : GLuint) (events : List Event)
    (rest : List (List Event)) (w : World) (h : w.shouldClose = false) :
    renderLoop shaderProgram VAO (events :: rest) w =
      renderLoop shaderProgram VAO rest
        (loopBody shaderProgram VAO events (issue .glfwWindowShouldClose w)) := by
  simp [renderLoop, glfwWindowShouldClose, h]

/-- The loop continues from the world loopHead reaches. -/
theorem renderLoop_loopHead (shaderProgram VAO : GLuint) (pre more : List (List Event))
    (w v : World) (h : loopHead shaderProgram VAO pre w = some v) :
    renderLoop shaderProgram VAO (pre ++ more) w = renderLoop shaderProgram VAO more v := by
  induction pre generalizing w with
  | nil =>
    simp only [loopHead, Option.some.injEq] at h
    simp [h]
  | cons events rest ih =>
    simp only [loopHead] at h
    by_cases hc : w.shouldClose = true
    · simp [hc] at h
    · simp only [hc, Bool.false_eq_true, if_false] at h
      rw [List.cons_append, renderLoop_running _ _ _ _ _ (by simpa using hc)]
      exact ih _ h

/-- Every draw of the loop is the draw of 3 vertices as triangles from vertex 0. -/
theorem renderLoop_draws (shaderProgram VAO : GLuint) (polls : List (List Event)) (w : World) :
    ∃ n, n ≤ polls.length ∧ draws (renderLoop shaderProgram VAO polls w).2.trace =
      draws w.trace ++ List.replicate n (.glDrawArrays .GL_TRIANGLES 0 3) := by
  induction polls generalizing w with
  | nil => exact ⟨0, le_refl _, by simp [renderLoop, glfwWindowShouldClose, issue, draws]⟩
  | cons events rest ih =>
    by_cases hc : w.shouldClose = true
    · rw [renderLoop_closed _ _ _ _ hc]
      exact ⟨0, Nat.zero_le _, by simp [issue, draws]⟩
    · rw [renderLoop_running _ _ _ _ _ (by simpa using hc)]
      obtain ⟨n, hn, h⟩ := ih (loopBody shaderProgram VAO events (issue .glfwWindowShouldClose w))
      refine ⟨n + 1, by simpa using hn, ?_⟩
      rw [h, loopBody_draws, List.replicate_succ]
      simp [issue, draws]

/-- The loop issues no buffer write. -/
theorem renderLoop_bufferWrites (shaderProgram VAO : GLuint) (polls : List (List Event))
    (w : World) :
    bufferWrites (renderLoop shaderProgram VAO polls w).2.trace = bufferWrites w.trace := by
  induction polls generalizing w with
  | nil => simp [renderLoop, glfwWindowShouldClose, issue, bufferWrites]
  | cons events rest ih =>
    by_cases hc : w.shouldClose = true
    · rw [renderLoop_closed _ _ _ _ hc]
      simp [issue, bufferWrites]
    · rw [renderLoop_running _ _ _ _ _ (by simpa using hc), ih, loopBody_bufferWrites]
      simp [issue, bufferWrites]

/-- The loop prints nothing. -/
theorem renderLoop_printed (shaderProgram VAO : GLuint) (polls : List (List Event))
    (w : World) :
    printed (renderLoop shaderProgram VAO polls w).2.trace = printed w.trace := by
  induction polls generalizing w with
  | nil => simp [renderLoop, glfwWindowShouldClose, issue, printed]
  | cons events rest ih =>
    by_cases hc : w.shouldClose = true
    · rw [renderLoop_closed _ _ _ _ hc]
      simp [issue, printed]
    · rw [renderLoop_running _ _ _ _ _ (by simpa using hc), ih, loopBody_printed]
      simp [issue, printed]

/-- The loop leaves the uploads and the attribute layouts alone. -/
theorem renderLoop_frame (shaderProgram VAO : GLuint) (polls : List (List Event)) (w : World) :
    (renderLoop shaderProgram VAO polls w).2.uploads = w.uploads ∧
    (renderLoop shaderProgram VAO polls w).2.attribPointers = w.attribPointers ∧
    (renderLoop shaderProgram VAO polls w).2.enabledAttribs = w.enabledAttribs ∧
    (renderLoop shaderProgram VAO polls w).2.resizeCallback = w.resizeCallback := by
  induction polls generalizing w with
  | nil => simp [renderLoop, glfwWindowShouldClose, issue]
  | cons events rest ih =>
    by_cases hc : w.shouldClose = true
    · rw [renderLoop_closed _ _ _ _ hc]
      simp [issue]
    · rw [renderLoop_running _ _ _ _ _ (by simpa using hc)]
      obtain ⟨h1, h2, h3, h4⟩ :=
        ih (loopBody shaderProgram VAO events (issue .glfwWindowShouldClose w))
      obtain ⟨b1, -, -, b4, b5, b6⟩ :=
        loopBody_frame shaderProgram VAO events (issue .glfwWindowShouldClose w)
      rw [h1, h2, h3, h4, b1, b4, b5, b6]
      simp [issue]

/-- A loop whose polls dispatch no resize leaves the viewport alone. -/
theorem renderLoop_viewport (shaderProgram VAO : GLuint) (polls : List (List Event)) (w : World)
    (h : ∀ events ∈ polls, ∀ e ∈ events, ∀ a b, e ≠ .framebufferSize a b) :
    (renderLoop shaderProgram VAO polls w).2.viewport = w.viewport := by
  induction polls generalizing w with
  | nil => simp [renderLoop, glfwWindowShouldClose, issue]
  | cons events rest ih =>
    by_cases hc : w.shouldClose = true
    · rw [renderLoop_closed _ _ _ _ hc]
      simp [issue]
    · rw [renderLoop_running _ _ _ _ _ (by simpa using hc),
        ih _ (fun evs hevs => h evs (List.mem_cons_of_mem _ hevs)),
        loopBody_viewport _ _ _ _ (h events (List.mem_cons_self _ _))]
      simp [issue]

/-- One iteration only adds to the trace. -/
theorem loopBody_extends (shaderProgram VAO : GLuint) (events : List Event) (w : World) :
    ∃ u, (loopBody shaderProgram VAO events w).trace = w.trace ++ u := by
  rw [loopBody_trace, process_input_trace, List.append_assoc, List.append_assoc]
  exact ⟨_, rfl⟩

/-- The loop only adds to the trace. -/
theorem renderLoop_extends (shaderProgram VAO : GLuint) (polls : List (List Event))
    (w : World) :
    ∃ t, (renderLoop shaderProgram VAO polls w).2.trace = w.trace ++ t := by
  induction polls generalizing w with
  | nil => exact ⟨[.glfwWindowShouldClose], rfl⟩
  | cons events rest ih =>
    by_cases hc : w.shouldClose = true
    · rw [renderLoop_closed _ _ _ _ hc]
      exact ⟨[.glfwWindowShouldClose], rfl⟩
    · rw [renderLoop_running _ _ _ _ _ (by simpa using hc)]
      obtain ⟨t, ht⟩ := ih (loopBody shaderProgram VAO events (issue .glfwWindowShouldClose w))
      obtain ⟨u, hu⟩ := loopBody_extends shaderProgram VAO events
        (issue .glfwWindowShouldClose w)
      refine ⟨[.glfwWindowShouldClose] ++ u ++ t, ?_⟩
      rw [ht, hu]
      simp [issue]

/-- The loop starts with the check of the close flag. -/
theorem renderLoop_check (shaderProgram VAO : GLuint) (polls : List (List Event)) (w : World) :
    ∃ t, (renderLoop shaderProgram VAO polls w).2.trace =
      w.trace ++ .glfwWindowShouldClose :: t := by
  cases polls with
  | nil => exact ⟨[], rfl⟩
  | cons events rest =>
    by_cases hc : w.shouldClose = true
    · rw [renderLoop_closed _ _ _ _ hc]
      exact ⟨[], rfl⟩
    · rw [renderLoop_running _ _ _ _ _ (by simpa using hc)]
      obtain ⟨t, ht⟩ := renderLoop_extends shaderProgram VAO rest
        (loopBody shaderProgram VAO events (issue .glfwWindowShouldClose w))
      obtain ⟨u, hu⟩ := loopBody_extends shaderProgram VAO events
        (issue .glfwWindowShouldClose w)
      refine ⟨u ++ t, ?_⟩
      rw [ht, hu]
      simp [issue]

/-! ## main -/

/-- The run of main once the two fatal checks have passed. -/
theorem main_ok (p : Platform) (win : Window) (polls : List (List Event))
    (hwin : p.window = some win) (hglad : p.gladLoaded ≠ 0) :
    main p polls =
      if (renderLoop p.shaderProgram p.VAO polls (setup p).1).1 then
        (glfwTerminate (renderLoop p.shaderProgram p.VAO polls (setup p).1).2, some 0)
      else ((renderLoop p.shaderProgram p.VAO polls (setup p).1).2, none) := by
  have h := (setup_state p win hwin hglad).1
  unfold main
  generalize setup p = s at h ⊢
  obtain ⟨w, r⟩ := s
  simp only at h
  subst h
  simp only

/-- The run of main when the setup returns early. -/
theorem main_early (p : Platform) (polls : List (List Event)) (code : Int)
    (h : (setup p).2 = .error code) : main p polls = ((setup p).1, some code) := by
  unfold main
  generalize setup p = s at h ⊢
  obtain ⟨w, r⟩ := s
  simp only at h
  subst h
  rfl

/-- The lines the setup prints: two for each status that reports failure. -/
theorem setup_printed (p : Platform) (win : Window) (hwin : p.window = some win)
    (hglad : p.gladLoaded ≠ 0) :
    printed (setup p).1.trace =
      (if p.vertexStatus = 0 then
        ["ERROR: Vertex shader compilation failed",
         "Information is: " ++ String.mk (p.vertexLog.toList.take 511)] else []) ++
      (if p.fragmentStatus = 0 then
        ["ERROR: Fragment shader compilation failed",
         "Information is: " ++ String.mk (p.fragmentLog.toList.take 511)] else []) ++
      (if p.linkStatus = 0 then
        ["ERROR: Shader program link failed",
         "Information is: " ++ String.mk (p.programLog.toList.take 511)] else []) := by
  rw [setup_trace p win hwin hglad]
  by_cases hv : p.vertexStatus = 0 <;> by_cases hf : p.fragmentStatus = 0 <;>
    by_cases hl : p.linkStatus = 0 <;> simp [printed, hv, hf, hl]

/-- A line that starts with the words Information is: is not empty. -/
theorem information_ne_empty (log : String) : "Information is: " ++ log ≠ "" := by
  intro h
  have h2 := congrArg String.length h
  rw [String.length_append] at h2
  have h3 : "Information is: ".length = 16 := by decide
  have h4 : "".length = 0 := by decide
  omega

/-- The trace of a run that passed the two fatal checks: the setup, then the
first check of the close flag. -/
theorem main_trace_ok (p : Platform) (win : Window) (polls : List (List Event))
    (hwin : p.window = some win) (hglad : p.gladLoaded ≠ 0) :
    ∃ t, (main p polls).1.trace = (setup p).1.trace ++ .glfwWindowShouldClose :: t := by
  rw [main_ok p win polls hwin hglad]
  obtain ⟨t, ht⟩ := renderLoop_check p.shaderProgram p.VAO polls (setup p).1
  split
  · exact ⟨t ++ [.glfwTerminate], by simp [glfwTerminate, issue, ht]⟩
  · exact ⟨t, ht⟩

/-- The lines a run that passed the two fatal checks prints are those of its
setup. -/
theorem main_printed_ok (p : Platform) (win : Window) (polls : List (List Event))
    (hwin : p.window = some win) (hglad : p.gladLoaded ≠ 0) :
    printed (main p polls).1.trace = printed (setup p).1.trace := by
  rw [main_ok p win polls hwin hglad]
  split
  · simp only [glfwTerminate, issue]
    rw [printed_append, renderLoop_printed]
    simp [printed]
  · exact renderLoop_printed _ _ _ _

/-- The setup issues no draw. -/
theorem setup_draws (p : Platform) : draws (setup p).1.trace = [] := by
  cases hwin : p.window with
  | none => rw [(setup_no_window p hwin).2.1]; simp [draws]
  | some win =>
    by_cases hglad : p.gladLoaded = 0
    · rw [(setup_no_loader p win hwin hglad).2.1]; simp [draws]
    · rw [setup_trace p win hwin hglad]
      by_cases hv : p.vertexStatus = 0 <;> by_cases hf : p.fragmentStatus = 0 <;>
        by_cases hl : p.linkStatus = 0 <;> simp [draws, hv, hf, hl]

/-- The one buffer write of a setup that passes the two fatal checks. -/
theorem setup_bufferWrites (p : Platform) (win : Window) (hwin : p.window = some win)
    (hglad : p.gladLoaded ≠ 0) :
    bufferWrites (setup p).1.trace =
      [.glBufferData .GL_ARRAY_BUFFER 36 vertices .GL_STATIC_DRAW] := by
  rw [setup_trace p win hwin hglad]
  by_cases hv : p.vertexStatus = 0 <;> by_cases hf : p.fragmentStatus = 0 <;>
    by_cases hl : p.linkStatus = 0 <;> simp [bufferWrites, hv, hf, hl]

/-- The array vertices, value by value. -/
theorem vertices_eq : vertices = [0, 0.5, 0, -0.5, -0.5, 0, 0.5, -0.5, 0] := by
  simp only [vertices]
  norm_num

/-! ## The claims -/

/-- C1: for every world in which exactly one of R, G, B is pressed (Escape and
Q arbitrary, prior clear colour arbitrary), one call of process_input leaves
the clear colour at exactly (1, 0.2, 0.2, 1) when the key is R, at
(0.2, 1, 0.2, 1) when it is G, and at (0.2, 0.2, 1, 1) when it is B. -/
theorem process_input_one_colour_key (w : World)
    (h : (w.keys.r = .GLFW_PRESS ∧ w.keys.g ≠ .GLFW_PRESS ∧ w.keys.b ≠ .GLFW_PRESS) ∨
         (w.keys.r ≠ .GLFW_PRESS ∧ w.keys.g = .GLFW_PRESS ∧ w.keys.b ≠ .GLFW_PRESS) ∨
         (w.keys.r ≠ .GLFW_PRESS ∧ w.keys.g ≠ .GLFW_PRESS ∧ w.keys.b = .GLFW_PRESS)) :
    (w.keys.r = .GLFW_PRESS → (process_input w).clearColor = ⟨1, 0.2, 0.2, 1⟩) ∧
    (w.keys.g = .GLFW_PRESS → (process_input w).clearColor = ⟨0.2, 1, 0.2, 1⟩) ∧
    (w.keys.b = .GLFW_PRESS → (process_input w).clearColor = ⟨0.2, 0.2, 1, 1⟩) := by
  rw [process_input_clearColor]
  rcases h with ⟨hr, hg, hb⟩ | ⟨hr, hg, hb⟩ | ⟨hr, hg, hb⟩ <;> simp [hr, hg, hb] <;> norm_num

/-- C1 at a world where only R is down (with Escape down as well). -/
theorem process_input_one_colour_key_witness :
    ((keysDown ⟨.GLFW_PRESS, .GLFW_RELEASE, .GLFW_PRESS, .GLFW_RELEASE, .GLFW_RELEASE⟩).keys.r
        = .GLFW_PRESS) ∧
    (process_input (keysDown ⟨.GLFW_PRESS, .GLFW_RELEASE, .GLFW_PRESS, .GLFW_RELEASE,
      .GLFW_RELEASE⟩)).clearColor = ⟨1, 0.2, 0.2, 1⟩ :=
  ⟨rfl, (process_input_one_colour_key
    (keysDown ⟨.GLFW_PRESS, .GLFW_RELEASE, .GLFW_PRESS, .GLFW_RELEASE, .GLFW_RELEASE⟩)
    (Or.inl ⟨rfl, by decide, by decide⟩)).1 rfl⟩

/-- C2: for every world in which two or more of R, G, B are pressed, the clear
colour after one call of process_input is blue whenever B is pressed, and
otherwise G is pressed and it is green; the outcome is the same from every
world with the same keys, whatever its prior clear colour. -/
theorem process_input_several_colour_keys (w : World)
    (h : (w.keys.r = .GLFW_PRESS ∧ w.keys.g = .GLFW_PRESS) ∨
         (w.keys.r = .GLFW_PRESS ∧ w.keys.b = .GLFW_PRESS) ∨
         (w.keys.g = .GLFW_PRESS ∧ w.keys.b = .GLFW_PRESS)) :
    (w.keys.b = .GLFW_PRESS → (process_input w).clearColor = ⟨0.2, 0.2, 1, 1⟩) ∧
    (w.keys.b ≠ .GLFW_PRESS →
      w.keys.g = .GLFW_PRESS ∧ (process_input w).clearColor = ⟨0.2, 1, 0.2, 1⟩) ∧
    (∀ v : World, v.keys = w.keys → (process_input v).clearColor = (process_input w).clearColor) := by
  refine ⟨?_, ?_, ?_⟩
  · intro hb
    rw [process_input_clearColor]
    simp [hb]
    norm_num
  · intro hb
    have hg : w.keys.g = .GLFW_PRESS := by
      rcases h with ⟨-, hg⟩ | ⟨-, hb2⟩ | ⟨hg, -⟩
      · exact hg
      · exact absurd hb2 hb
      · exact hg
    refine ⟨hg, ?_⟩
    rw [process_input_clearColor]
    simp [hb, hg]
    norm_num
  · intro v hv
    have hb : w.keys.b = .GLFW_PRESS ∨ w.keys.g = .GLFW_PRESS := by
      rcases h with ⟨-, hg⟩ | ⟨-, hb⟩ | ⟨hg, -⟩
      · exact Or.inr hg
      · exact Or.inl hb
      · exact Or.inr hg
    rw [process_input_clearColor, process_input_clearColor, hv]
    rcases hb with hb | hg
    · simp [hb]
    · by_cases hb : w.keys.b = .GLFW_PRESS <;> simp [hb, hg]

/-- C2 at a world where R, G and B are all down. -/
theorem process_input_several_colour_keys_witness :
    (process_input (keysDown ⟨.GLFW_RELEASE, .GLFW_RELEASE, .GLFW_PRESS, .GLFW_PRESS,
      .GLFW_PRESS⟩)).clearColor = ⟨0.2, 0.2, 1, 1⟩ :=
  (process_input_several_colour_keys
    (keysDown ⟨.GLFW_RELEASE, .GLFW_RELEASE, .GLFW_PRESS, .GLFW_PRESS, .GLFW_PRESS⟩)
    (Or.inl ⟨rfl, rfl⟩)).1 rfl

/-- C10: process_input never clears the close flag; with neither Escape nor Q
pressed the flag is as before; with none of R, G, B pressed the clear colour
is as before; the viewport is never changed; the flag after the call is
decided by Escape, Q and the prior flag alone, the colour by R, G, B and the
prior colour alone; Escape held together with R sets the flag and sets the
colour to red. -/
theorem process_input_effects (w : World) :
    (w.shouldClose = true → (process_input w).shouldClose = true) ∧
    (w.keys.escape ≠ .GLFW_PRESS → w.keys.q ≠ .GLFW_PRESS →
      (process_input w).shouldClose = w.shouldClose) ∧
    (w.keys.r ≠ .GLFW_PRESS → w.keys.g ≠ .GLFW_PRESS → w.keys.b ≠ .GLFW_PRESS →
      (process_input w).clearColor = w.clearColor) ∧
    (process_input w).viewport = w.viewport ∧
    (∀ v : World, v.keys.escape = w.keys.escape → v.keys.q = w.keys.q →
      v.shouldClose = w.shouldClose →
      (process_input v).shouldClose = (process_input w).shouldClose) ∧
    (∀ v : World, v.keys.r = w.keys.r → v.keys.g = w.keys.g → v.keys.b = w.keys.b →
      v.clearColor = w.clearColor →
      (process_input v).clearColor = (process_input w).clearColor) ∧
    (w.keys.escape = .GLFW_PRESS → w.keys.r = .GLFW_PRESS → w.keys.g ≠ .GLFW_PRESS →
      w.keys.b ≠ .GLFW_PRESS →
      (process_input w).shouldClose = true ∧
      (process_input w).clearColor = ⟨1, 0.2, 0.2, 1⟩) := by
  refine ⟨?_, ?_, ?_, (process_input_frame w).1, ?_, ?_, ?_⟩
  · intro h
    rw [process_input_shouldClose, h]
    simp
  · intro he hq
    rw [process_input_shouldClose]
    simp [he, hq]
  · intro hr hg hb
    rw [process_input_clearColor]
    simp [hr, hg, hb]
  · intro v he hq hc
    rw [process_input_shouldClose, process_input_shouldClose, he, hq, hc]
  · intro v hr hg hb hc
    rw [process_input_clearColor, process_input_clearColor, hr, hg, hb, hc]
  · intro he hr hg hb
    rw [process_input_shouldClose, process_input_clearColor]
    simp [he, hr, hg, hb]
    norm_num

/-- C10 at a world where Escape and R are down and the flag is clear. -/
theorem process_input_effects_witness :
    (process_input (keysDown ⟨.GLFW_PRESS, .GLFW_RELEASE, .GLFW_PRESS, .GLFW_RELEASE,
      .GLFW_RELEASE⟩)).shouldClose = true ∧
    (process_input (keysDown ⟨.GLFW_PRESS, .GLFW_RELEASE, .GLFW_PRESS, .GLFW_RELEASE,
      .GLFW_RELEASE⟩)).clearColor = ⟨1, 0.2, 0.2, 1⟩ :=
  (process_input_effects
    (keysDown ⟨.GLFW_PRESS, .GLFW_RELEASE, .GLFW_PRESS, .GLFW_RELEASE, .GLFW_RELEASE⟩)).2.2.2.2.2.2
    rfl rfl (by decide) (by decide)

/-- C3: in a run of main that has passed the two fatal checks, at every head of
the loop reached with the close flag clear and Escape or Q pressed, the close
flag is true after process_input and is still true when the poll starts; if
it is still true after the poll, the next check ends the loop whatever
batches remain: no further iteration runs, main calls glfwTerminate and
returns 0. -/
theorem close_key_ends_main (p : Platform) (win : Window) (pre : List (List Event))
    (events : List Event) (rest : List (List Event)) (w : World)
    (hwin : p.window = some win) (hglad : p.gladLoaded ≠ 0)
    (hhead : loopHead p.shaderProgram p.VAO pre (setup p).1 = some w)
    (hrun : w.shouldClose = false)
    (hkey : w.keys.escape = .GLFW_PRESS ∨ w.keys.q = .GLFW_PRESS) :
    (process_input (glfwWindowShouldClose w).2).shouldClose = true ∧
    (glfwSwapBuffers (glDrawArrays .GL_TRIANGLES 0 3 (glBindVertexArray p.VAO
      (glUseProgram p.shaderProgram (glClear .GL_COLOR_BUFFER_BIT
        (process_input (glfwWindowShouldClose w).2)))))).shouldClose = true ∧
    ((loopBody p.shaderProgram p.VAO events (glfwWindowShouldClose w).2).shouldClose = true →
      main p (pre ++ events :: rest) =
        (glfwTerminate (glfwWindowShouldClose
          (loopBody p.shaderProgram p.VAO events (glfwWindowShouldClose w).2)).2, some 0)) := by
  have hflag : (process_input (glfwWindowShouldClose w).2).shouldClose = true := by
    rw [process_input_shouldClose]
    simp [glfwWindowShouldClose, issue, hkey]
  refine ⟨hflag, ?_, ?_⟩
  · simpa [glfwSwapBuffers, glDrawArrays, glBindVertexArray, glUseProgram, glClear, issue]
      using hflag
  · intro hpoll
    have hpoll2 : (loopBody p.shaderProgram p.VAO events
        (issue .glfwWindowShouldClose w)).shouldClose = true := hpoll
    rw [main_ok p win _ hwin hglad, renderLoop_loopHead _ _ pre _ _ _ hhead,
      renderLoop_running _ _ _ _ _ hrun, renderLoop_closed _ _ _ _ hpoll2]
    simp [glfwWindowShouldClose]

/-- C3 on the plain platform: Escape goes down during the first poll, the
second iteration sets the flag, and main returns 0 with two batches unused. -/
theorem close_key_ends_main_witness :
    (main plainPlatform [[.key .GLFW_KEY_ESCAPE .GLFW_PRESS], [], [], []]).2 = some 0 :=
  congrArg Prod.snd
    ((close_key_ends_main plainPlatform _ [[.key .GLFW_KEY_ESCAPE .GLFW_PRESS]] [] [[], []]
      (loopBody plainPlatform.shaderProgram plainPlatform.VAO
        [.key .GLFW_KEY_ESCAPE .GLFW_PRESS] (glfwWindowShouldClose (setup plainPlatform).1).2)
      rfl (by decide) rfl rfl (Or.inl rfl)).2.2 rfl)

/-- C4, the run the claim gets wrong: when the window is created and the
function loader reports failure, main prints its message and returns -1
without any later call, and glfwTerminate is not called.  When window creation
fails, main prints its message, calls glfwTerminate and returns -1. -/
theorem fatal_runs (p : Platform) (polls : List (List Event)) :
    (p.window = none →
      (main p polls).2 = some (-1) ∧
      (main p polls).1.trace =
        [.glfwInit,
         .glfwWindowHint .GLFW_CONTEXT_VERSION_MAJOR (.num 3),
         .glfwWindowHint .GLFW_CONTEXT_VERSION_MINOR (.num 3),
         .glfwWindowHint .GLFW_OPENGL_PROFILE .GLFW_OPENGL_CORE_PROFILE,
         .glfwCreateWindow 800 600 "Learn OpenGL",
         .cout "Failed to create GLFW window",
         .glfwTerminate]) ∧
    (p.window.isSome → p.gladLoaded = 0 →
      (main p polls).2 = some (-1) ∧
      (main p polls).1.trace =
        [.glfwInit,
         .glfwWindowHint .GLFW_CONTEXT_VERSION_MAJOR (.num 3),
         .glfwWindowHint .GLFW_CONTEXT_VERSION_MINOR (.num 3),
         .glfwWindowHint .GLFW_OPENGL_PROFILE .GLFW_OPENGL_CORE_PROFILE,
         .glfwCreateWindow 800 600 "Learn OpenGL",
         .glfwMakeContextCurrent,
         .gladLoadGLLoader,
         .cout "Failed to initialize glad"] ∧
      Call.glfwTerminate ∉ (main p polls).1.trace) := by
  constructor
  · intro hwin
    obtain ⟨h1, h2, -⟩ := setup_no_window p hwin
    rw [main_early p polls (-1) h1]
    exact ⟨rfl, h2⟩
  · intro hsome hglad
    obtain ⟨win, hwin⟩ := Option.isSome_iff_exists.mp hsome
    obtain ⟨h1, h2, -⟩ := setup_no_loader p win hwin hglad
    rw [main_early p polls (-1) h1]
    refine ⟨rfl, h2, ?_⟩
    rw [h2]
    simp

/-- C4 on the platform whose loader fails: main returns -1 and glfwTerminate
is not among its calls. -/
theorem fatal_runs_witness :
    (main noLoaderPlatform []).2 = some (-1) ∧
    Call.glfwTerminate ∉ (main noLoaderPlatform []).1.trace :=
  ⟨((fatal_runs noLoaderPlatform []).2 rfl rfl).1, ((fatal_runs noLoaderPlatform []).2 rfl rfl).2.2⟩

/-- C5: when window creation and function loading succeed, for every
combination of the three statuses main does not return early: the setup hands
the loop its two locals, the trace of main is the whole setup followed by the
first check of the close flag, and the exit code is never -1.  Every status
that reports failure has its diagnostic printed, every line printed is
non-empty, and with three successes nothing is printed. -/
theorem setup_reaches_loop (p : Platform) (win : Window) (polls : List (List Event))
    (hwin : p.window = some win) (hglad : p.gladLoaded ≠ 0) :
    (setup p).2 = .ok (p.shaderProgram, p.VAO) ∧
    (∃ t, (main p polls).1.trace = (setup p).1.trace ++ .glfwWindowShouldClose :: t) ∧
    (main p polls).2 ≠ some (-1) ∧
    printed (main p polls).1.trace =
      (if p.vertexStatus = 0 then
        ["ERROR: Vertex shader compilation failed",
         "Information is: " ++ String.mk (p.vertexLog.toList.take 511)] else []) ++
      (if p.fragmentStatus = 0 then
        ["ERROR: Fragment shader compilation failed",
         "Information is: " ++ String.mk (p.fragmentLog.toList.take 511)] else []) ++
      (if p.linkStatus = 0 then
        ["ERROR: Shader program link failed",
         "Information is: " ++ String.mk (p.programLog.toList.take 511)] else []) ∧
    (p.vertexStatus = 0 →
      "ERROR: Vertex shader compilation failed" ∈ printed (main p polls).1.trace) ∧
    (p.fragmentStatus = 0 →
      "ERROR: Fragment shader compilation failed" ∈ printed (main p polls).1.trace) ∧
    (p.linkStatus = 0 →
      "ERROR: Shader program link failed" ∈ printed (main p polls).1.trace) ∧
    (∀ line ∈ printed (main p polls).1.trace, line ≠ "") ∧
    (p.vertexStatus ≠ 0 → p.fragmentStatus ≠ 0 → p.linkStatus ≠ 0 →
      printed (main p polls).1.trace = []) := by
  have hp := (main_printed_ok p win polls hwin hglad).trans (setup_printed p win hwin hglad)
  refine ⟨(setup_state p win hwin hglad).1, main_trace_ok p win polls hwin hglad, ?_, hp,
    ?_, ?_, ?_, ?_, ?_⟩
  · rw [main_ok p win polls hwin hglad]
    split <;> simp
  · intro h
    rw [hp]
    simp [h]
  · intro h
    rw [hp]
    simp [h]
  · intro h
    rw [hp]
    simp [h]
  · intro line hline
    rw [hp] at hline
    simp only [List.mem_append] at hline
    rcases hline with (hline | hline) | hline <;> split at hline <;>
      simp only [List.mem_cons, List.mem_singleton, List.not_mem_nil, or_false] at hline
    all_goals
      rcases hline with rfl | rfl
      · decide
      · exact information_ne_empty _
  · intro hv hf hl
    rw [hp]
    simp [hv, hf, hl]

/-- C5 on the plain platform with a vertex shader that fails to compile: the
run reaches the loop and prints the vertex diagnostic. -/
theorem setup_reaches_loop_witness :
    (main { plainPlatform with vertexStatus := 0 } []).2 ≠ some (-1) ∧
    "ERROR: Vertex shader compilation failed" ∈
      printed (main { plainPlatform with vertexStatus := 0 } []).1.trace :=
  ⟨(setup_reaches_loop { plainPlatform with vertexStatus := 0 } _ [] rfl (by decide)).2.2.1,
   (setup_reaches_loop { plainPlatform with vertexStatus := 0 } _ [] rfl
      (by decide)).2.2.2.2.1 rfl⟩

/-- C6: an iteration of the loop issues, in this order and with nothing in
between: the calls of process_input; the clear of the colour buffer; the
activation of shaderProgram; the binding of VAO; the draw of 3 vertices as
triangles from vertex 0; the buffer swap; the event poll (with the glViewport
calls of the resize callback it dispatches).  The clear fills with the clear
colour process_input has left.  In main the loop runs with the program and the
vertex array object of the setup, and a head of the loop with the close flag
clear is followed by exactly one such iteration. -/
theorem loopBody_order (shaderProgram VAO : GLuint) (events : List Event) (w : World)
    (p : Platform) (win : Window) (polls rest : List (List Event)) :
    (loopBody shaderProgram VAO events w).trace =
      (process_input w).trace ++
      [.glClear .GL_COLOR_BUFFER_BIT, .glUseProgram shaderProgram, .glBindVertexArray VAO,
       .glDrawArrays .GL_TRIANGLES 0 3, .glfwSwapBuffers, .glfwPollEvents] ++
      (if w.resizeCallback then resizeCalls events else []) ∧
    w.trace <+: (process_input w).trace ∧
    (loopBody shaderProgram VAO events w).clearedWith = some (process_input w).clearColor ∧
    (w.shouldClose = false →
      renderLoop shaderProgram VAO (events :: rest) w =
        renderLoop shaderProgram VAO rest
          (loopBody shaderProgram VAO events (glfwWindowShouldClose w).2)) ∧
    (p.window = some win → p.gladLoaded ≠ 0 →
      (setup p).2 = .ok (p.shaderProgram, p.VAO) ∧
      Call.glLinkProgram p.shaderProgram ∈ (setup p).1.trace ∧
      main p polls =
        if (renderLoop p.shaderProgram p.VAO polls (setup p).1).1 then
          (glfwTerminate (renderLoop p.shaderProgram p.VAO polls (setup p).1).2, some 0)
        else ((renderLoop p.shaderProgram p.VAO polls (setup p).1).2, none)) := by
  refine ⟨loopBody_trace _ _ _ _, ?_, (loopBody_frame _ _ _ _).2.2.1, ?_, ?_⟩
  · rw [process_input_trace]
    exact List.prefix_append _ _
  · intro h
    exact renderLoop_running _ _ _ _ _ h
  · intro hwin hglad
    refine ⟨(setup_state p win hwin hglad).1, ?_, main_ok p win polls hwin hglad⟩
    rw [setup_trace p win hwin hglad]
    simp

/-- C6 with R down: the colour buffer is cleared with the colour process_input
has just left; and on the plain platform the loop gets program 3 and vertex
array object 1 from the setup. -/
theorem loopBody_order_witness :
    (loopBody 3 1 [] (keysDown ⟨.GLFW_RELEASE, .GLFW_RELEASE, .GLFW_PRESS, .GLFW_RELEASE,
      .GLFW_RELEASE⟩)).clearedWith =
      some (process_input (keysDown ⟨.GLFW_RELEASE, .GLFW_RELEASE, .GLFW_PRESS, .GLFW_RELEASE,
        .GLFW_RELEASE⟩)).clearColor ∧
    (setup plainPlatform).2 = .ok (3, 1) :=
  ⟨(loopBody_order 3 1 [] _ plainPlatform ⟨false, ⟨.GLFW_RELEASE, .GLFW_RELEASE, .GLFW_RELEASE,
      .GLFW_RELEASE, .GLFW_RELEASE⟩⟩ [] []).2.2.1,
   ((loopBody_order 3 1 [] World.start plainPlatform _ [] []).2.2.2.2 rfl (by decide)).1⟩

/-- C7: for every width and height, framebuffer_size_callback leaves the
viewport at origin (0, 0) with exactly that width and height, whatever it was
before (its one call is glViewport 0 0 width height), and leaves the clear
colour and the close flag alone; a poll whose last event is a resize, with the
callback registered, leaves the viewport of that resize.  After the setup the
callback is registered and the viewport is (0, 0, 800, 600), and it is still
so at the end of every run whose polls dispatch no resize. -/
theorem framebuffer_size_callback_viewport (width height : GLint) (w : World)
    (events : List Event) (p : Platform) (win : Window) (polls : List (List Event)) :
    (framebuffer_size_callback width height w).viewport = ⟨0, 0, width, height⟩ ∧
    (framebuffer_size_callback width height w).trace =
      w.trace ++ [.glViewport 0 0 width height] ∧
    (framebuffer_size_callback width height w).clearColor = w.clearColor ∧
    (framebuffer_size_callback width height w).shouldClose = w.shouldClose ∧
    (w.resizeCallback = true →
      (glfwPollEvents (events ++ [.framebufferSize width height]) w).viewport =
        ⟨0, 0, width, height⟩) ∧
    (p.window = some win → p.gladLoaded ≠ 0 →
      (setup p).1.resizeCallback = true ∧
      (setup p).1.viewport = ⟨0, 0, 800, 600⟩ ∧
      ((∀ batch ∈ polls, ∀ e ∈ batch, ∀ a b, e ≠ .framebufferSize a b) →
        (main p polls).1.viewport = ⟨0, 0, 800, 600⟩)) := by
  refine ⟨rfl, rfl, rfl, rfl, glfwPollEvents_resize_last events width height w, ?_⟩
  intro hwin hglad
  obtain ⟨-, -, -, hcb, hvp, -⟩ := setup_state p win hwin hglad
  refine ⟨hcb, hvp, ?_⟩
  intro hno
  rw [main_ok p win polls hwin hglad]
  split
  · simp only [glfwTerminate, issue]
    rw [renderLoop_viewport _ _ _ _ hno, hvp]
  · rw [renderLoop_viewport _ _ _ _ hno, hvp]

/-- C7 on the plain platform: a run of two iterations without resize ends with
the viewport (0, 0, 800, 600). -/
theorem framebuffer_size_callback_viewport_witness :
    (main plainPlatform [[.key .GLFW_KEY_G .GLFW_PRESS], [.shouldClose true]]).1.viewport =
      ⟨0, 0, 800, 600⟩ :=
  ((framebuffer_size_callback_viewport 0 0 World.start [] plainPlatform _
    [[.key .GLFW_KEY_G .GLFW_PRESS], [.shouldClose true]]).2.2.2.2.2 rfl (by decide)).2.2
    (by simp)

/-- C8, amended: in every run of main, every draw issued is the draw of 3
vertices as triangles from vertex 0, at most one for each batch of events.  In
a run that passes the two fatal checks the vertex data is uploaded exactly
once, by the setup and so before the first iteration, as the 9 floats
(0, 0.5, 0), (-0.5, -0.5, 0), (0.5, -0.5, 0); a run that fails a fatal check
uploads nothing.  The loop body, process_input and the resize callback issue
no buffer write and leave the uploads alone. -/
theorem main_draws_and_uploads (p : Platform) (polls : List (List Event))
    (shaderProgram VAO : GLuint) (events : List Event) (width height : GLint) (w : World) :
    (∃ n, n ≤ polls.length ∧
      draws (main p polls).1.trace = List.replicate n (.glDrawArrays .GL_TRIANGLES 0 3)) ∧
    (∀ c ∈ draws (main p polls).1.trace, c = .glDrawArrays .GL_TRIANGLES 0 3) ∧
    bufferWrites (main p polls).1.trace =
      (if p.window.isSome ∧ p.gladLoaded ≠ 0 then
        [.glBufferData .GL_ARRAY_BUFFER 36 [0, 0.5, 0, -0.5, -0.5, 0, 0.5, -0.5, 0]
          .GL_STATIC_DRAW]
       else []) ∧
    (main p polls).1.uploads =
      (if p.window.isSome ∧ p.gladLoaded ≠ 0 then
        [(p.VBO, [0, 0.5, 0, -0.5, -0.5, 0, 0.5, -0.5, 0])]
       else []) ∧
    (∃ t, (main p polls).1.trace = (setup p).1.trace ++ t ∧ bufferWrites t = []) ∧
    draws (setup p).1.trace = [] ∧
    (bufferWrites (loopBody shaderProgram VAO events w).trace = bufferWrites w.trace ∧
      (loopBody shaderProgram VAO events w).uploads = w.uploads) ∧
    (bufferWrites (process_input w).trace = bufferWrites w.trace ∧
      (process_input w).uploads = w.uploads) ∧
    (bufferWrites (framebuffer_size_callback width height w).trace = bufferWrites w.trace ∧
      (framebuffer_size_callback width height w).uploads = w.uploads) := by
  have hmain : (∃ n, n ≤ polls.length ∧
      draws (main p polls).1.trace = List.replicate n (.glDrawArrays .GL_TRIANGLES 0 3)) ∧
      bufferWrites (main p polls).1.trace =
        (if p.window.isSome ∧ p.gladLoaded ≠ 0 then
          [.glBufferData .GL_ARRAY_BUFFER 36 vertices .GL_STATIC_DRAW] else []) ∧
      (main p polls).1.uploads =
        (if p.window.isSome ∧ p.gladLoaded ≠ 0 then [(p.VBO, vertices)] else []) ∧
      (∃ t, (main p polls).1.trace = (setup p).1.trace ++ t ∧ bufferWrites t = []) := by
    cases hwin : p.window with
    | none =>
      obtain ⟨h1, h2, h3⟩ := setup_no_window p hwin
      rw [main_early p polls (-1) h1]
      refine ⟨⟨0, Nat.zero_le _, ?_⟩, ?_, ?_, ⟨[], by simp, rfl⟩⟩
      · rw [setup_draws]; rfl
      · rw [h2]; simp [bufferWrites]
      · rw [h3]; simp
    | some win =>
      by_cases hglad : p.gladLoaded = 0
      · obtain ⟨h1, h2, h3⟩ := setup_no_loader p win hwin hglad
        rw [main_early p polls (-1) h1]
        refine ⟨⟨0, Nat.zero_le _, ?_⟩, ?_, ?_, ⟨[], by simp, rfl⟩⟩
        · rw [setup_draws]; rfl
        · rw [h2]; simp [bufferWrites, hglad]
        · rw [h3]; simp [hglad]
      · have hup := (setup_state p win hwin hglad).2.2.2.2.2.2.2.2.2.1
        have hbw := setup_bufferWrites p win hwin hglad
        obtain ⟨n, hn, hd⟩ := renderLoop_draws p.shaderProgram p.VAO polls (setup p).1
        obtain ⟨t, ht⟩ := renderLoop_extends p.shaderProgram p.VAO polls (setup p).1
        have hb := renderLoop_bufferWrites p.shaderProgram p.VAO polls (setup p).1
        have hu := (renderLoop_frame p.shaderProgram p.VAO polls (setup p).1).1
        have ht0 : bufferWrites t = [] := by
          have h := hb
          rw [ht, bufferWrites_append] at h
          exact List.append_right_eq_self.mp h
        rw [setup_draws, List.nil_append] at hd
        rw [main_ok p win polls hwin hglad]
        split
        · simp only [glfwTerminate, issue]
          refine ⟨⟨n, hn, ?_⟩, ?_, ?_, ⟨t ++ [.glfwTerminate], ?_, ?_⟩⟩
          · rw [draws_append, hd]; simp [draws]
          · rw [bufferWrites_append, hb, hbw]; simp [bufferWrites, hglad]
          · rw [hu, hup]; simp [hglad]
          · rw [ht, List.append_assoc]
          · rw [bufferWrites_append, ht0]; simp [bufferWrites]
        · refine ⟨⟨n, hn, hd⟩, ?_, ?_, ⟨t, ht, ht0⟩⟩
          · rw [hb, hbw]; simp [hglad]
          · rw [hu, hup]; simp [hglad]
  obtain ⟨⟨n, hn, hd⟩, hb, hu, ht⟩ := hmain
  refine ⟨⟨n, hn, hd⟩, ?_, ?_, ?_, ht, setup_draws p,
    ⟨loopBody_bufferWrites _ _ _ _, (loopBody_frame _ _ _ _).2.2.2.1⟩,
    ⟨process_input_bufferWrites w, (process_input_frame w).2.2.2.2.2.2.1⟩, ?_⟩
  · intro c hc
    rw [hd] at hc
    exact List.eq_of_mem_replicate hc
  · rw [hb, vertices_eq]
  · rw [hu, vertices_eq]
  · simp [framebuffer_size_callback, glViewport, issue, bufferWrites]

/-- C8 on the plain platform, three iterations with a resize and key presses:
the draws are the three draws of the triangle. -/
theorem main_draws_and_uploads_witness :
    ∀ c ∈ draws (main plainPlatform [[.framebufferSize 640 480],
      [.key .GLFW_KEY_B .GLFW_PRESS], [.shouldClose true]]).1.trace,
      c = .glDrawArrays .GL_TRIANGLES 0 3 :=
  (main_draws_and_uploads plainPlatform [[.framebufferSize 640 480],
      [.key .GLFW_KEY_B .GLFW_PRESS], [.shouldClose true]] 0 0 [] 0 0 World.start).2.1

/-- C8 as stated fails on the run in which window creation fails: main
returns before the upload, so the vertex data is uploaded zero times, not
once. -/
theorem main_no_window_uploads_nothing :
    bufferWrites (main noWindowPlatform []).1.trace = [] ∧
    (bufferWrites (main noWindowPlatform []).1.trace).length ≠ 1 ∧
    (main noWindowPlatform []).1.uploads = [] := by
  have h1 := (setup_no_window noWindowPlatform rfl).1
  have h2 := (setup_no_window noWindowPlatform rfl).2.1
  have h3 := (setup_no_window noWindowPlatform rfl).2.2
  rw [main_early noWindowPlatform [] (-1) h1, h2, h3]
  simp [bufferWrites]

/-- C9: in the setup, the calls that bind, declare a layout or enable a slot
are, in order: bind the vertex buffer, bind the vertex array object, declare
slot 0 as 3 floats, not normalised, stride of 3 floats, offset 0, enable slot
0, unbind the vertex array object, unbind the buffer; the last six calls of
the setup are the generation of the vertex array object and the last five of
these.  The layout is recorded with the vertex array object and the vertex
buffer both bound at the moment of the call, and the slot is enabled in that
vertex array object. -/
theorem setup_layout_order (p : Platform) (win : Window) (hwin : p.window = some win)
    (hglad : p.gladLoaded ≠ 0) :
    layoutCalls (setup p).1.trace =
      [.glBindBuffer .GL_ARRAY_BUFFER p.VBO,
       .glBindVertexArray p.VAO,
       .glVertexAttribPointer 0 3 .GL_FLOAT false (3 * sizeof_float) 0,
       .glEnableVertexAttribArray 0,
       .glBindVertexArray 0,
       .glBindBuffer .GL_ARRAY_BUFFER 0] ∧
    (∃ front, (setup p).1.trace = front ++
      [.glGenVertexArrays 1,
       .glBindVertexArray p.VAO,
       .glVertexAttribPointer 0 3 .GL_FLOAT false (3 * sizeof_float) 0,
       .glEnableVertexAttribArray 0,
       .glBindVertexArray 0,
       .glBindBuffer .GL_ARRAY_BUFFER 0] ∧
      layoutCalls front = [.glBindBuffer .GL_ARRAY_BUFFER p.VBO]) ∧
    (setup p).1.attribPointers =
      [{ vertexArray := p.VAO, arrayBuffer := p.VBO, index := 0, size := 3, type := .GL_FLOAT,
         normalized := false, stride := 3 * sizeof_float, offset := 0 }] ∧
    (setup p).1.enabledAttribs = [(p.VAO, 0)] ∧
    (setup p).1.vertexArray = 0 ∧
    (setup p).1.arrayBuffer = 0 := by
  obtain ⟨-, -, -, -, -, -, hab, hva, -, -, hap, hen, -⟩ := setup_state p win hwin hglad
  refine ⟨?_, ?_, hap, hen, hva, hab⟩
  · rw [setup_trace p win hwin hglad]
    by_cases hv : p.vertexStatus = 0 <;> by_cases hf : p.fragmentStatus = 0 <;>
      by_cases hl : p.linkStatus = 0 <;> simp [layoutCalls, hv, hf, hl, sizeof_float]
  · rw [setup_trace p win hwin hglad]
    refine ⟨[.glfwInit,
       .glfwWindowHint .GLFW_CONTEXT_VERSION_MAJOR (.num 3),
       .glfwWindowHint .GLFW_CONTEXT_VERSION_MINOR (.num 3),
       .glfwWindowHint .GLFW_OPENGL_PROFILE .GLFW_OPENGL_CORE_PROFILE,
       .glfwCreateWindow 800 600 "Learn OpenGL",
       .glfwMakeContextCurrent,
       .gladLoadGLLoader,
       .glViewport 0 0 800 600,
       .glfwSetFramebufferSizeCallback,
       .glClearColor 0.0 0.0 0.0 1.0,
       .glGenBuffers 1,
       .glBindBuffer .GL_ARRAY_BUFFER p.VBO,
       .glBufferData .GL_ARRAY_BUFFER 36 vertices .GL_STATIC_DRAW,
       .glCreateShader .GL_VERTEX_SHADER,
       .glShaderSource p.vertexShader 1 vertexShaderSource,
       .glCompileShader p.vertexShader,
       .glGetShaderiv p.vertexShader .GL_COMPILE_STATUS] ++
      (if p.vertexStatus = 0 then
        [.glGetShaderInfoLog p.vertexShader 512,
         .cout "ERROR: Vertex shader compilation failed",
         .cout ("Information is: " ++ String.mk (p.vertexLog.toList.take 511))]
       else []) ++
      [.glCreateShader .GL_FRAGMENT_SHADER,
       .glShaderSource p.fragmentShader 1 fragmentShaderSource,
       .glCompileShader p.fragmentShader,
       .glGetShaderiv p.fragmentShader .GL_COMPILE_STATUS] ++
      (if p.fragmentStatus = 0 then
        [.glGetShaderInfoLog p.fragmentShader 512,
         .cout "ERROR: Fragment shader compilation failed",
         .cout ("Information is: " ++ String.mk (p.fragmentLog.toList.take 511))]
       else []) ++
      [.glCreateProgram,
       .glAttachShader p.shaderProgram p.vertexShader,
       .glAttachShader p.shaderProgram p.fragmentShader,
       .glLinkProgram p.shaderProgram,
       .glGetProgramiv p.shaderProgram .GL_LINK_STATUS] ++
      (if p.linkStatus = 0 then
        [.glGetProgramInfoLog p.shaderProgram 512,
         .cout "ERROR: Shader program link failed",
         .cout ("Information is: " ++ String.mk (p.programLog.toList.take 511))]
       else []) ++
      [.glDeleteShader p.vertexShader,
       .glDeleteShader p.fragmentShader], ?_, ?_⟩
    · simp [sizeof_float]
    · by_cases hv : p.vertexStatus = 0 <;> by_cases hf : p.fragmentStatus = 0 <;>
        by_cases hl : p.linkStatus = 0 <;> simp [layoutCalls, hv, hf, hl]

/-- C9 on the plain platform: the layout of slot 0 is recorded with vertex
array object 1 and buffer 1 bound. -/
theorem setup_layout_order_witness :
    (setup plainPlatform).1.attribPointers =
      [{ vertexArray := 1, arrayBuffer := 1, index := 0, size := 3, type := .GL_FLOAT,
         normalized := false, stride := 3 * sizeof_float, offset := 0 }] :=
  (setup_layout_order plainPlatform _ rfl (by decide)).2.2.1

end LearnOpenGL


